import Mathlib

/-!
Verification of the `third_party_auth` decorators
(`common/djangoapps/third_party_auth/decorators.py`) and the
`toggle_assets_lock` management command
(`cms/djangoapps/contentstore/management/commands/toggle_assets_lock.py`).

The Python code is shallowly embedded: Django request/response objects become
plain structures, ORM querysets become lists passed as parameters, and the
external lookup functions (provider registry, course-key parsing, content
store) become function parameters.  Byte strings of Python 2 are modelled by
Lean `String`s whose characters are below 256 where that matters.
-/

namespace Edx

/-- Python `s.rstrip('/')`: remove every trailing `'/'` character. -/
def rstripSlashes (s : String) : String :=
  ⟨(s.data.reverse.dropWhile (fun c => c = '/')).reverse⟩

/-- The six components returned by Python 2 `urlparse.urlparse`.  The request
`Referer` header is modelled in already-parsed form, i.e. the external
`urlparse` call is the identity on this structure. -/
structure ParsedUrl where
  scheme : String
  netloc : String
  path : String
  params : String
  query : String
  fragment : String
deriving DecidableEq

/-- Python 2 `urlparse.urlunsplit` on `(scheme, netloc, url, query, fragment)`. -/
def urlunsplit (scheme netloc url query fragment : String) : String :=
  let url :=
    if netloc ≠ "" ∨ (url ≠ "" ∧ url.data.take 2 = ['/', '/']) then
      "//" ++ netloc ++ (if url ≠ "" ∧ ¬ url.data.take 1 = ['/'] then "/" ++ url else url)
    else url
  let url := if scheme ≠ "" then scheme ++ ":" ++ url else url
  let url := if query ≠ "" then url ++ "?" ++ query else url
  if fragment ≠ "" then url ++ "#" ++ fragment else url

/-- Python 2 `urlparse.urlunparse` on the six URL components. -/
def urlunparse (u : ParsedUrl) : String :=
  let url := if u.params ≠ "" then u.path ++ ";" ++ u.params else u.path
  urlunsplit u.scheme u.netloc url u.query u.fragment

/-- Python 2 `ParseResult.hostname`: the part of the netloc after the last
`'@'`, with an IPv6 bracket pair or a `:port` suffix stripped, lowercased;
`none` when the netloc is empty. -/
def ParsedUrl.hostname (u : ParsedUrl) : Option String :=
  let netloc := (u.netloc.data.reverse.takeWhile (fun c => c ≠ '@')).reverse
  if netloc.contains '[' && netloc.contains ']' then
    some ⟨((netloc.takeWhile (fun c => c ≠ ']')).drop 1).map Char.toLower⟩
  else if netloc.contains ':' then
    some ⟨(netloc.takeWhile (fun c => c ≠ ':')).map Char.toLower⟩
  else if netloc.isEmpty then none
  else some ⟨netloc.map Char.toLower⟩

/-- The Django settings the decorators read: the
`FEATURES['ENABLE_THIRD_PARTY_AUTH']` flag and the
`THIRD_PARTY_AUTH_FRAME_ALLOWED_FROM_URL` allow-list. -/
structure Settings where
  ENABLE_THIRD_PARTY_AUTH : Bool
  THIRD_PARTY_AUTH_FRAME_ALLOWED_FROM_URL : List String
deriving DecidableEq

/-- A Django `HttpResponse`: headers (assignment `resp[name] = value` replaces
any existing header of that name) plus a body. -/
structure HttpResponse where
  headers : List (String × String)
  body : String
deriving DecidableEq

/-- Header assignment `resp[name] = value`. -/
def setHeader (resp : HttpResponse) (name value : String) : HttpResponse :=
  { resp with headers := resp.headers.filter (fun h => h.1 != name) ++ [(name, value)] }

/-- Header lookup by name. -/
def getHeader (resp : HttpResponse) (name : String) : Option String :=
  (resp.headers.find? (fun h => h.1 == name)).map (fun h => h.2)

/-- The parts of a Django request that the decorators read.
`HTTP_REFERER` is `request.META.get('HTTP_REFERER')` in parsed form,
`GET_tpa_hint` and `GET_session_cleared` are the query parameters,
`user_present` is the truthiness of `request.user`,
`logout_url` is `request.build_absolute_uri(reverse('logout'))`. -/
structure Request where
  HTTP_REFERER : Option ParsedUrl
  GET_tpa_hint : Option String
  GET_session_cleared : Option String
  user_present : Bool
  user_is_authenticated : Bool
  path : String
  logout_url : String
deriving DecidableEq

/-- First (shadowed) definition of `allow_frame_from_whitelisted_url`
(decorators.py lines 19-48); the trailing slashes of the SSO URLs are
stripped with a list comprehension, embedded as the `foldr` that builds the
comprehension's list.  `sso_url_values` models the queryset
`SAMLProviderData.objects.values_list('sso_url', flat=True)`. -/
def allow_frame_from_whitelisted_url_first (settings : Settings) (sso_url_values : List String)
    (view_func : Request → HttpResponse) (request : Request) : HttpResponse :=
  let resp := view_func request
  let pair : String × String :=
    if settings.ENABLE_THIRD_PARTY_AUTH then
      match request.HTTP_REFERER with
      | some parsed_url =>
        let referer_url := urlunparse
          { scheme := parsed_url.scheme, netloc := parsed_url.netloc,
            path := rstripSlashes parsed_url.path, params := "", query := "", fragment := "" }
        let sso_urls := sso_url_values.foldr (fun url acc => rstripSlashes url :: acc) []
        if referer_url ∈ sso_urls then
          let allowed_urls := String.intercalate " " settings.THIRD_PARTY_AUTH_FRAME_ALLOWED_FROM_URL
          ("ALLOW-FROM " ++ allowed_urls, "frame-ancestors " ++ allowed_urls)
        else ("DENY", "frame-ancestors 'none'")
      | none => ("DENY", "frame-ancestors 'none'")
    else ("DENY", "frame-ancestors 'none'")
  setHeader (setHeader resp "X-Frame-Options" pair.1) "Content-Security-Policy" pair.2

/-- Second, effective definition of `allow_frame_from_whitelisted_url`
(decorators.py lines 51-80); identical to the first except the trailing
slashes are stripped with `map`. -/
def allow_frame_from_whitelisted_url (settings : Settings) (sso_url_values : List String)
    (view_func : Request → HttpResponse) (request : Request) : HttpResponse :=
  let resp := view_func request
  let pair : String × String :=
    if settings.ENABLE_THIRD_PARTY_AUTH then
      match request.HTTP_REFERER with
      | some parsed_url =>
        let referer_url := urlunparse
          { scheme := parsed_url.scheme, netloc := parsed_url.netloc,
            path := rstripSlashes parsed_url.path, params := "", query := "", fragment := "" }
        let sso_urls := sso_url_values.map (fun url => rstripSlashes url)
        if referer_url ∈ sso_urls then
          let allowed_urls := String.intercalate " " settings.THIRD_PARTY_AUTH_FRAME_ALLOWED_FROM_URL
          ("ALLOW-FROM " ++ allowed_urls, "frame-ancestors " ++ allowed_urls)
        else ("DENY", "frame-ancestors 'none'")
      | none => ("DENY", "frame-ancestors 'none'")
    else ("DENY", "frame-ancestors 'none'")
  setHeader (setHeader resp "X-Frame-Options" pair.1) "Content-Security-Policy" pair.2

/-- One row of `LTIProviderConfig.objects.current_set()`: the registered
hostname and the enabled flag. -/
structure LTIProviderConfig where
  lti_hostname : String
  enabled : Bool
deriving DecidableEq

/-- `xframe_allow_whitelisted` (decorators.py lines 83-102).
`lti_current_set` models the queryset `LTIProviderConfig.objects.current_set()`;
the `filter(lti_hostname=hostname, enabled=True).exists()` call becomes an
`any` over that list. -/
def xframe_allow_whitelisted (settings : Settings) (lti_current_set : List LTIProviderConfig)
    (view_func : Request → HttpResponse) (request : Request) : HttpResponse :=
  let resp := view_func request
  let x_frame_option : String :=
    if settings.ENABLE_THIRD_PARTY_AUTH then
      match request.HTTP_REFERER with
      | some parsed_url =>
        let hostname := parsed_url.hostname
        if lti_current_set.any (fun c => (some c.lti_hostname == hostname) && c.enabled) then
          "ALLOW"
        else "DENY"
      | none => "DENY"
    else "DENY"
  setHeader resp "X-Frame-Options" x_frame_option

/-- The characters Python 2 `urllib.always_safe` leaves unquoted:
ASCII letters, digits, and `'_'`, `'.'`, `'-'`. -/
def isPy2Safe (c : Char) : Bool :=
  c.isAlpha || c.isDigit || c == '_' || c == '.' || c == '-'

/-- Upper-case hexadecimal digit of a value below 16 (`'%%%02X'`). -/
def hexUpper (n : Nat) : Char :=
  if n < 10 then Char.ofNat (48 + n) else Char.ofNat (55 + n)

/-- Value of a hexadecimal digit character, `none` on a non-digit. -/
def hexVal (c : Char) : Option Nat :=
  if '0' ≤ c ∧ c ≤ '9' then some (c.toNat - 48)
  else if 'A' ≤ c ∧ c ≤ 'F' then some (c.toNat - 55)
  else if 'a' ≤ c ∧ c ≤ 'f' then some (c.toNat - 87)
  else none

/-- Python 2 `urllib.quote_plus` on a single byte: safe bytes pass through,
a space becomes `'+'`, everything else becomes `%XX` with upper-case hex. -/
def quotePlusChar (c : Char) : List Char :=
  if isPy2Safe c then [c]
  else if c = ' ' then ['+']
  else ['%', hexUpper (c.toNat / 16), hexUpper (c.toNat % 16)]

/-- `quote_plus` over a byte sequence. -/
def quotePlusL : List Char → List Char
  | [] => []
  | c :: cs => quotePlusChar c ++ quotePlusL cs

/-- Python 2 `urllib.quote_plus` on a string. -/
def quotePlus (s : String) : String := ⟨quotePlusL s.data⟩

/-- Python `urllib.urlencode` on a sequence (or one-key dict) of pairs:
`'&'.join(quote_plus(k) + '=' + quote_plus(v))`. -/
def urlencodePairs : List (String × String) → String
  | [] => ""
  | [kv] => quotePlus kv.1 ++ "=" ++ quotePlus kv.2
  | kv :: rest => quotePlus kv.1 ++ "=" ++ quotePlus kv.2 ++ "&" ++ urlencodePairs rest

/-- Decoder used to state claims about produced query strings: inverse of
`quote_plus` (greedy `%XX`/`'+'` decoding, as `urlparse.unquote_plus`;
malformed escapes are passed through). -/
def unquotePlusList : List Char → List Char
  | [] => []
  | c :: rest =>
    if c = '+' then ' ' :: unquotePlusList rest
    else if c = '%' then
      match rest with
      | c1 :: c2 :: rest2 =>
        match hexVal c1, hexVal c2 with
        | some hi, some lo => Char.ofNat (16 * hi + lo) :: unquotePlusList rest2
        | _, _ => '%' :: c1 :: c2 :: unquotePlusList rest2
      | [c1] => ['%', c1]
      | [] => ['%']
    else c :: unquotePlusList rest

/-- Everything before the first occurrence of `sep` (the whole list when
`sep` does not occur). -/
def beforeFirstChar (sep : Char) : List Char → List Char
  | [] => []
  | c :: rest => if c = sep then [] else c :: beforeFirstChar sep rest

/-- Everything after the first occurrence of `sep` (empty when `sep` does
not occur). -/
def afterFirstChar (sep : Char) : List Char → List Char
  | [] => []
  | c :: rest => if c = sep then rest else afterFirstChar sep rest

/-- Split at every occurrence of `sep`. -/
def splitOnChar (sep : Char) : List Char → List (List Char)
  | [] => [[]]
  | c :: rest =>
    match splitOnChar sep rest with
    | [] => [[]]
    | g :: gs => if c = sep then [] :: g :: gs else (c :: g) :: gs

/-- The query string of a URL: everything after the first `'?'`. -/
def queryStringOf (url : String) : String := ⟨afterFirstChar '?' url.data⟩

/-- Parse a query string into decoded key/value pairs, splitting on `'&'`
and on the first `'='` of each piece, then `unquote_plus`-decoding both
sides (as `urlparse.parse_qsl`). -/
def parseQsl (qs : String) : List (String × String) :=
  (splitOnChar '&' qs.data).map
    (fun kv => (⟨unquotePlusList (beforeFirstChar '=' kv)⟩,
                ⟨unquotePlusList (afterFirstChar '=' kv)⟩))

/-- The part of an SSO provider configuration that
`tpa_hint_ends_existing_session` reads. -/
structure SsoProviderConfig where
  drop_existing_session : Bool
deriving DecidableEq

/-- Result of a decorated view: either an HTTP redirect to a URL or the
wrapped view's response. -/
inductive ViewResult where
  | redirect (url : String)
  | response (resp : HttpResponse)
deriving DecidableEq

/-- Python truthiness of an optional string: `None` and `''` are falsy. -/
def truthyOptStr : Option String → Bool
  | some s => s != ""
  | none => false

/-- The redirect target built at decorators.py lines 134-152:
`logout_url ? urlencode({redirect_url: path ? urlencode([(tpa_hint, id), (session_cleared, yes)])})`. -/
def tpaLogoutRedirectUrl (request : Request) (provider_id : String) : String :=
  request.logout_url ++ "?" ++ urlencodePairs
    [("redirect_url",
      request.path ++ "?" ++ urlencodePairs [("tpa_hint", provider_id), ("session_cleared", "yes")])]

/-- `tpa_hint_ends_existing_session` (decorators.py lines 105-156).
`registry_get` models `Registry.get(provider_id=...)`, with the caught
`ValueError` of an unknown provider mapped to `none`. -/
def tpa_hint_ends_existing_session (registry_get : String → Option SsoProviderConfig)
    (func : Request → HttpResponse) (request : Request) : ViewResult :=
  let provider_id := request.GET_tpa_hint
  let decorator_already_processed : Bool := request.GET_session_cleared == some "yes"
  let sso_provider : Option SsoProviderConfig :=
    if truthyOptStr provider_id && !decorator_already_processed then
      if request.user_present && request.user_is_authenticated then
        registry_get (provider_id.getD "")
      else none
    else none
  match sso_provider with
  | some p =>
    if p.drop_existing_session then
      ViewResult.redirect (tpaLogoutRedirectUrl request (provider_id.getD ""))
    else ViewResult.response (func request)
  | none => ViewResult.response (func request)

/-- An asset record as returned by
`contentstore().get_all_content_for_course`: only its `asset_key` is used. -/
structure Asset where
  asset_key : String
deriving DecidableEq

/-- A course as returned by `modulestore().get_courses()`: only its `id`
(an opaque course key, modelled as a string) is used. -/
structure CourseDescriptor where
  id : String
deriving DecidableEq

/-- One observable mutation step of the toggle command: a
`content_store.set_attr(key, 'locked', locked)` call or a
`del_cached_content(key)` cache eviction. -/
inductive StoreOp where
  | setAttrLocked (asset_key : String) (locked : Bool)
  | delCachedContent (asset_key : String)
deriving DecidableEq

/-- The `for asset in assets` loop body of `toggle_course_assets_lock`
(toggle_assets_lock.py lines 49-52): for each asset, set the locked
attribute, then delete the asset from the cache. -/
def assetLockOps (locked : Bool) : List Asset → List StoreOp
  | [] => []
  | asset :: rest =>
    StoreOp.setAttrLocked asset.asset_key locked
      :: StoreOp.delCachedContent asset.asset_key
      :: assetLockOps locked rest

/-- `toggle_course_assets_lock` (toggle_assets_lock.py lines 44-54);
`assetsOf` models `contentstore().get_all_content_for_course`. -/
def toggle_course_assets_lock (assetsOf : String → List Asset) (course_key : String)
    (locked : Bool) : List StoreOp :=
  assetLockOps locked (assetsOf course_key)

/-- The `for course in courses` loop of `Command.handle`. -/
def toggleAllCourses (assetsOf : String → List Asset) (locked : Bool) :
    List CourseDescriptor → List StoreOp
  | [] => []
  | course :: rest =>
    toggle_course_assets_lock assetsOf course.id locked ++ toggleAllCourses assetsOf locked rest

/-- `Command.handle` (toggle_assets_lock.py lines 28-41), returning the
mutation trace together with the optional `CommandError` message.
`from_string` models `CourseKey.from_string`, with the caught
`InvalidKeyError` mapped to `none`; `courses` models
`modulestore().get_courses()`.  Python's `if course_id:` treats `None` and
the empty string as falsy. -/
def Command_handle (from_string : String → Option String) (courses : List CourseDescriptor)
    (assetsOf : String → List Asset) (course_id : Option String) (locked : Bool) :
    List StoreOp × Option String :=
  match course_id with
  | some cid =>
    if cid = "" then (toggleAllCourses assetsOf locked courses, none)
    else
      match from_string cid with
      | none => ([], some ("Invalid course_id: '" ++ cid ++ "'."))
      | some course_key => (toggle_course_assets_lock assetsOf course_key locked, none)
  | none => (toggleAllCourses assetsOf locked courses, none)

/-- The state the command mutates: the per-asset `locked` attribute in the
content store, and the set of cached asset keys. -/
structure AssetStoreState where
  lockedAttrs : List (String × Bool)
  cachedKeys : List String
deriving DecidableEq

/-- Association-list lookup for asset attributes. -/
def getAssoc : List (String × Bool) → String → Option Bool
  | [], _ => none
  | (k, v) :: rest, key => if k = key then some v else getAssoc rest key

/-- Association-list update for asset attributes. -/
def setAssoc : List (String × Bool) → String → Bool → List (String × Bool)
  | [], key, value => [(key, value)]
  | (k, v) :: rest, key, value =>
    if k = key then (key, value) :: rest else (k, v) :: setAssoc rest key value

/-- Effect of one mutation step on the store state. -/
def applyOp (st : AssetStoreState) : StoreOp → AssetStoreState
  | StoreOp.setAttrLocked k v => { st with lockedAttrs := setAssoc st.lockedAttrs k v }
  | StoreOp.delCachedContent k => { st with cachedKeys := st.cachedKeys.filter (fun k2 => k2 != k) }

/-- Effect of a mutation trace on the store state. -/
def applyOps (st : AssetStoreState) (ops : List StoreOp) : AssetStoreState :=
  ops.foldl applyOp st

/-- The `locked` attribute of an asset in a store state. -/
def getLockedAttr (st : AssetStoreState) (key : String) : Option Bool :=
  getAssoc st.lockedAttrs key

/-- The keys of the cache evictions of a trace, in order. -/
def delKeys : List StoreOp → List String
  | [] => []
  | StoreOp.delCachedContent k :: rest => k :: delKeys rest
  | _ :: rest => delKeys rest

/-- A trace that is a sequence of lock-mutation/cache-eviction pairs: each
eviction immediately follows the mutation of the same asset key. -/
inductive LockThenEvict (locked : Bool) : List StoreOp → Prop
  | nil : LockThenEvict locked []
  | cons (k : String) (rest : List StoreOp) : LockThenEvict locked rest →
      LockThenEvict locked
        (StoreOp.setAttrLocked k locked :: StoreOp.delCachedContent k :: rest)

/-- All characters of a string are single bytes (Python 2 `str`). -/
def allLt256 (s : String) : Prop := ∀ c ∈ s.data, c.toNat < 256

instance (s : String) : Decidable (allLt256 s) :=
  inferInstanceAs (Decidable (∀ c ∈ s.data, c.toNat < 256))

/-- The condition under which the effective `allow_frame_from_whitelisted_url`
relaxes the frame headers: feature flag on and the referrer, normalized by
dropping query string, fragment, params and trailing slashes of the path,
equal to a trailing-slash-stripped configured SSO URL. -/
def ssoRefererMatch (settings : Settings) (sso_url_values : List String)
    (request : Request) : Prop :=
  settings.ENABLE_THIRD_PARTY_AUTH = true ∧
  ∃ parsed_url, request.HTTP_REFERER = some parsed_url ∧
    urlunparse
      { scheme := parsed_url.scheme, netloc := parsed_url.netloc,
        path := rstripSlashes parsed_url.path, params := "", query := "", fragment := "" }
      ∈ sso_url_values.map (fun url => rstripSlashes url)

/-- The condition under which `xframe_allow_whitelisted` allows framing:
feature flag on and the referrer's hostname registered by a currently
enabled LTI provider configuration. -/
def ltiRefererMatch (settings : Settings) (lti_current_set : List LTIProviderConfig)
    (request : Request) : Prop :=
  settings.ENABLE_THIRD_PARTY_AUTH = true ∧
  ∃ parsed_url, request.HTTP_REFERER = some parsed_url ∧
    ∃ c ∈ lti_current_set, c.enabled = true ∧ parsed_url.hostname = some c.lti_hostname

/-- Concrete example registry: one provider, `saml-test`, that drops
existing sessions. -/
def exampleRegistry : String → Option SsoProviderConfig :=
  fun p => if p == "saml-test" then some ⟨true⟩ else none

/-- Concrete example view function. -/
def exampleView : Request → HttpResponse := fun _ => HttpResponse.mk [] "ok"

/-- Concrete example request carrying a `tpa_hint` and no marker. -/
def exampleReq1 : Request :=
  { HTTP_REFERER := none, GET_tpa_hint := some "saml-test", GET_session_cleared := none,
    user_present := true, user_is_authenticated := true, path := "/dashboard",
    logout_url := "https://lms.example.com/logout" }

/-- Concrete example request carrying the same hint plus `session_cleared=yes`. -/
def exampleReq2 : Request :=
  { HTTP_REFERER := none, GET_tpa_hint := some "saml-test", GET_session_cleared := some "yes",
    user_present := true, user_is_authenticated := true, path := "/dashboard",
    logout_url := "https://lms.example.com/logout" }

theorem find?_filter_append_self (l : List (String × String)) (name value : String) :
    ((l.filter (fun h => h.1 != name)) ++ [(name, value)]).find? (fun h => h.1 == name)
      = some (name, value) := by
  induction l with
  | nil => simp [List.find?]
  | cons kv t ih =>
    by_cases hk : kv.1 = name
    · simp [List.filter_cons, hk, ih]
    · simp only [List.filter_cons]
      have : (kv.1 != name) = true := by simp [hk]
      rw [this]
      simp only [if_pos rfl, List.cons_append, List.find?]
      have : (kv.1 == name) = false := by simp [hk]
      rw [this]
      exact ih

theorem find?_filter_append_ne (l : List (String × String)) (name value other : String)
    (hne : other ≠ name) :
    ((l.filter (fun h => h.1 != name)) ++ [(name, value)]).find? (fun h => h.1 == other)
      = l.find? (fun h => h.1 == other) := by
  have h3 : (name == other) = false := by simp [Ne.symm hne]
  induction l with
  | nil =>
    simp [List.find?, h3]
  | cons kv t ih =>
    by_cases hk : kv.1 = name
    · have h2 : (kv.1 == other) = false := by simp [hk, Ne.symm hne]
      simp [List.filter_cons, hk, List.find?, h2, h3, ih]
    · simp only [List.filter_cons]
      have : (kv.1 != name) = true := by simp [hk]
      rw [this]
      simp only [if_pos rfl, List.cons_append, List.find?]
      by_cases ho : kv.1 = other
      · simp [ho]
      · have h2 : (kv.1 == other) = false := by simp [ho]
        rw [h2]
        simp only [cond_false]
        exact ih

theorem getHeader_setHeader_self (resp : HttpResponse) (name value : String) :
    getHeader (setHeader resp name value) name = some value := by
  unfold getHeader setHeader
  rw [find?_filter_append_self]
  rfl

theorem getHeader_setHeader_ne (resp : HttpResponse) (name value other : String)
    (hne : other ≠ name) :
    getHeader (setHeader resp name value) other = getHeader resp other := by
  unfold getHeader setHeader
  rw [find?_filter_append_ne resp.headers name value other hne]

theorem setHeader_body (resp : HttpResponse) (name value : String) :
    (setHeader resp name value).body = resp.body := rfl

theorem hexVal_hexUpper : ∀ n : Fin 16, hexVal (hexUpper n.val) = some n.val := by decide

theorem hexUpper_facts : ∀ n : Fin 16,
    (hexUpper n.val).toNat < 256 ∧ hexUpper n.val ≠ '&' ∧ hexUpper n.val ≠ '=' := by decide

theorem ne_of_isPy2Safe (c : Char) (h : isPy2Safe c = true) :
    c ≠ '+' ∧ c ≠ '%' ∧ c ≠ '&' ∧ c ≠ '=' := by
  refine ⟨?_, ?_, ?_, ?_⟩ <;> rintro rfl <;> exact absurd h (by decide)

theorem unquotePlusList_cons_other (c : Char) (rest : List Char) (h1 : c ≠ '+') (h2 : c ≠ '%') :
    unquotePlusList (c :: rest) = c :: unquotePlusList rest := by
  rw [unquotePlusList.eq_def]
  dsimp only
  rw [if_neg h1, if_neg h2]

theorem unquotePlusList_percent (c1 c2 : Char) (rest : List Char) (hi lo : Nat)
    (h1 : hexVal c1 = some hi) (h2 : hexVal c2 = some lo) :
    unquotePlusList ('%' :: c1 :: c2 :: rest)
      = Char.ofNat (16 * hi + lo) :: unquotePlusList rest := by
  rw [unquotePlusList.eq_def]
  dsimp only
  rw [h1, h2]
  simp

theorem unquotePlusList_quotePlusChar (c : Char) (h : c.toNat < 256) (rest : List Char) :
    unquotePlusList (quotePlusChar c ++ rest) = c :: unquotePlusList rest := by
  unfold quotePlusChar
  by_cases hs : isPy2Safe c
  · obtain ⟨h1, h2, -, -⟩ := ne_of_isPy2Safe c hs
    simp only [if_pos hs, List.cons_append, List.nil_append]
    exact unquotePlusList_cons_other c rest h1 h2
  · by_cases hsp : c = ' '
    · subst hsp
      simp only [if_neg hs, if_pos rfl, List.cons_append, List.nil_append]
      rw [unquotePlusList.eq_def]
      simp
    · have hhi : hexVal (hexUpper (c.toNat / 16)) = some (c.toNat / 16) :=
        hexVal_hexUpper ⟨c.toNat / 16, by omega⟩
      have hlo : hexVal (hexUpper (c.toNat % 16)) = some (c.toNat % 16) :=
        hexVal_hexUpper ⟨c.toNat % 16, by omega⟩
      simp only [if_neg hs, if_neg hsp, List.cons_append, List.nil_append]
      rw [unquotePlusList_percent _ _ rest _ _ hhi hlo, Nat.div_add_mod, Char.ofNat_toNat]

theorem unquotePlusList_quotePlusL (l : List Char) (h : ∀ c ∈ l, c.toNat < 256) :
    unquotePlusList (quotePlusL l) = l := by
  induction l with
  | nil => rfl
  | cons c cs ih =>
    simp only [quotePlusL]
    rw [unquotePlusList_quotePlusChar c (h c (by simp)) (quotePlusL cs)]
    rw [ih (fun c2 hc2 => h c2 (by simp [hc2]))]

theorem quotePlusChar_facts (c : Char) (h : c.toNat < 256) :
    ∀ c2 ∈ quotePlusChar c, c2.toNat < 256 ∧ c2 ≠ '&' ∧ c2 ≠ '=' := by
  intro c2 hc2
  unfold quotePlusChar at hc2
  by_cases hs : isPy2Safe c
  · rw [if_pos hs] at hc2
    obtain ⟨-, -, h3, h4⟩ := ne_of_isPy2Safe c hs
    simp only [List.mem_singleton] at hc2
    subst hc2
    exact ⟨h, h3, h4⟩
  · by_cases hsp : c = ' '
    · rw [if_neg hs, if_pos hsp] at hc2
      simp only [List.mem_singleton] at hc2
      subst hc2
      refine ⟨by decide, by decide, by decide⟩
    · rw [if_neg hs, if_neg hsp] at hc2
      have hhi : (hexUpper (c.toNat / 16)).toNat < 256 ∧ hexUpper (c.toNat / 16) ≠ '&' ∧
          hexUpper (c.toNat / 16) ≠ '=' := hexUpper_facts ⟨c.toNat / 16, by omega⟩
      have hlo : (hexUpper (c.toNat % 16)).toNat < 256 ∧ hexUpper (c.toNat % 16) ≠ '&' ∧
          hexUpper (c.toNat % 16) ≠ '=' := hexUpper_facts ⟨c.toNat % 16, by omega⟩
      simp only [List.mem_cons, List.mem_singleton, List.not_mem_nil, or_false] at hc2
      rcases hc2 with rfl | rfl | rfl
      · exact ⟨by decide, by decide, by decide⟩
      · exact hhi
      · exact hlo

theorem quotePlusL_facts (l : List Char) (h : ∀ c ∈ l, c.toNat < 256) :
    ∀ c2 ∈ quotePlusL l, c2.toNat < 256 ∧ c2 ≠ '&' ∧ c2 ≠ '=' := by
  induction l with
  | nil => intro c2 hc2; cases hc2
  | cons c cs ih =>
    intro c2 hc2
    simp only [quotePlusL, List.mem_append] at hc2
    rcases hc2 with hc2 | hc2
    · exact quotePlusChar_facts c (h c (by simp)) c2 hc2
    · exact ih (fun c3 hc3 => h c3 (by simp [hc3])) c2 hc2

theorem amp_not_mem_quotePlusL (l : List Char) (h : ∀ c ∈ l, c.toNat < 256) :
    '&' ∉ quotePlusL l := by
  intro hm
  exact (quotePlusL_facts l h '&' hm).2.1 rfl

theorem eq_not_mem_quotePlusL (l : List Char) (h : ∀ c ∈ l, c.toNat < 256) :
    '=' ∉ quotePlusL l := by
  intro hm
  exact (quotePlusL_facts l h '=' hm).2.2 rfl

theorem beforeFirstChar_append (sep : Char) (a b : List Char) (h : sep ∉ a) :
    beforeFirstChar sep (a ++ sep :: b) = a := by
  induction a with
  | nil => simp [beforeFirstChar]
  | cons c t ih =>
    simp only [List.mem_cons, not_or] at h
    simp [beforeFirstChar, Ne.symm h.1, ih h.2]

theorem afterFirstChar_append (sep : Char) (a b : List Char) (h : sep ∉ a) :
    afterFirstChar sep (a ++ sep :: b) = b := by
  induction a with
  | nil => simp [afterFirstChar]
  | cons c t ih =>
    simp only [List.mem_cons, not_or] at h
    simp [afterFirstChar, Ne.symm h.1, ih h.2]

theorem splitOnChar_ne_nil (sep : Char) (l : List Char) : splitOnChar sep l ≠ [] := by
  cases l with
  | nil => simp [splitOnChar]
  | cons c rest =>
    simp only [splitOnChar]
    rcases hs : splitOnChar sep rest with - | ⟨g, gs⟩
    · simp
    · by_cases hc : c = sep <;> simp [hc]

theorem splitOnChar_not_mem (sep : Char) (l : List Char) (h : sep ∉ l) :
    splitOnChar sep l = [l] := by
  induction l with
  | nil => rfl
  | cons c t ih =>
    simp only [List.mem_cons, not_or] at h
    simp [splitOnChar, ih h.2, Ne.symm h.1]

theorem splitOnChar_append (sep : Char) (a b : List Char) (h : sep ∉ a) :
    splitOnChar sep (a ++ sep :: b) = a :: splitOnChar sep b := by
  induction a with
  | nil =>
    simp only [List.nil_append, splitOnChar]
    rcases hs : splitOnChar sep b with - | ⟨g, gs⟩
    · exact absurd hs (splitOnChar_ne_nil sep b)
    · simp
  | cons c t ih =>
    simp only [List.mem_cons, not_or] at h
    simp only [List.cons_append, splitOnChar]
    simp only [List.append_eq]
    rw [ih h.2]
    simp [Ne.symm h.1]

theorem parseQsl_urlencodePairs_one (k v : String) (hk : allLt256 k) (hv : allLt256 v) :
    parseQsl (urlencodePairs [(k, v)]) = [(k, v)] := by
  have hdata : (urlencodePairs [(k, v)]).data
      = quotePlusL k.data ++ '=' :: quotePlusL v.data := by
    show (quotePlus k ++ "=" ++ quotePlus v).data = _
    simp [quotePlus, String.data_append, List.append_assoc]
  unfold parseQsl
  rw [hdata]
  have hamp : '&' ∉ quotePlusL k.data ++ '=' :: quotePlusL v.data := by
    simp only [List.mem_append, List.mem_cons, not_or]
    exact ⟨amp_not_mem_quotePlusL k.data hk, by decide, amp_not_mem_quotePlusL v.data hv⟩
  rw [splitOnChar_not_mem _ _ hamp]
  simp only [List.map_cons, List.map_nil]
  rw [beforeFirstChar_append _ _ _ (eq_not_mem_quotePlusL k.data hk),
      afterFirstChar_append _ _ _ (eq_not_mem_quotePlusL k.data hk),
      unquotePlusList_quotePlusL k.data hk, unquotePlusList_quotePlusL v.data hv]

theorem parseQsl_urlencodePairs_two (k1 v1 k2 v2 : String)
    (h1 : allLt256 k1) (h2 : allLt256 v1) (h3 : allLt256 k2) (h4 : allLt256 v2) :
    parseQsl (urlencodePairs [(k1, v1), (k2, v2)]) = [(k1, v1), (k2, v2)] := by
  have hdata : (urlencodePairs [(k1, v1), (k2, v2)]).data
      = (quotePlusL k1.data ++ '=' :: quotePlusL v1.data)
        ++ '&' :: (quotePlusL k2.data ++ '=' :: quotePlusL v2.data) := by
    show (quotePlus k1 ++ "=" ++ quotePlus v1 ++ "&" ++ (quotePlus k2 ++ "=" ++ quotePlus v2)).data = _
    simp [quotePlus, String.data_append, List.append_assoc]
  unfold parseQsl
  rw [hdata]
  have hampa : '&' ∉ quotePlusL k1.data ++ '=' :: quotePlusL v1.data := by
    simp only [List.mem_append, List.mem_cons, not_or]
    exact ⟨amp_not_mem_quotePlusL k1.data h1, by decide, amp_not_mem_quotePlusL v1.data h2⟩
  have hampb : '&' ∉ quotePlusL k2.data ++ '=' :: quotePlusL v2.data := by
    simp only [List.mem_append, List.mem_cons, not_or]
    exact ⟨amp_not_mem_quotePlusL k2.data h3, by decide, amp_not_mem_quotePlusL v2.data h4⟩
  rw [splitOnChar_append _ _ _ hampa, splitOnChar_not_mem _ _ hampb]
  simp only [List.map_cons, List.map_nil]
  rw [beforeFirstChar_append _ _ _ (eq_not_mem_quotePlusL k1.data h1),
      afterFirstChar_append _ _ _ (eq_not_mem_quotePlusL k1.data h1),
      beforeFirstChar_append _ _ _ (eq_not_mem_quotePlusL k2.data h3),
      afterFirstChar_append _ _ _ (eq_not_mem_quotePlusL k2.data h3),
      unquotePlusList_quotePlusL k1.data h1, unquotePlusList_quotePlusL v1.data h2,
      unquotePlusList_quotePlusL k2.data h3, unquotePlusList_quotePlusL v2.data h4]

theorem queryStringOf_append (base qs : String) (h : '?' ∉ base.data) :
    queryStringOf (base ++ "?" ++ qs) = qs := by
  unfold queryStringOf
  have hdata : (base ++ "?" ++ qs).data = base.data ++ '?' :: qs.data := by
    simp [String.data_append]
  rw [hdata, afterFirstChar_append _ _ _ h]

theorem urlBaseOf_append (base qs : String) (h : '?' ∉ base.data) :
    (⟨beforeFirstChar '?' (base ++ "?" ++ qs).data⟩ : String) = base := by
  have hdata : (base ++ "?" ++ qs).data = base.data ++ '?' :: qs.data := by
    simp [String.data_append]
  rw [hdata, beforeFirstChar_append _ _ _ h]

theorem allLt256_append_q (a b : String) (ha : allLt256 a) (hb : allLt256 b) :
    allLt256 (a ++ "?" ++ b) := by
  intro c2 hc2
  simp only [String.data_append] at hc2
  rcases List.mem_append.1 hc2 with hc2 | hc2
  · rcases List.mem_append.1 hc2 with hc2 | hc2
    · exact ha c2 hc2
    · rw [List.mem_singleton] at hc2
      subst hc2
      decide
  · exact hb c2 hc2

theorem allLt256_urlencodePairs_two (k1 v1 k2 v2 : String)
    (h1 : allLt256 k1) (h2 : allLt256 v1) (h3 : allLt256 k2) (h4 : allLt256 v2) :
    allLt256 (urlencodePairs [(k1, v1), (k2, v2)]) := by
  intro c2 hc2
  have hdata : (urlencodePairs [(k1, v1), (k2, v2)]).data
      = (quotePlusL k1.data ++ '=' :: quotePlusL v1.data)
        ++ '&' :: (quotePlusL k2.data ++ '=' :: quotePlusL v2.data) := by
    show (quotePlus k1 ++ "=" ++ quotePlus v1 ++ "&" ++ (quotePlus k2 ++ "=" ++ quotePlus v2)).data = _
    simp [quotePlus, String.data_append, List.append_assoc]
  rw [hdata] at hc2
  simp only [List.mem_append, List.mem_cons] at hc2
  rcases hc2 with (hc2 | rfl | hc2) | rfl | hc2 | rfl | hc2
  · exact (quotePlusL_facts k1.data h1 c2 hc2).1
  · decide
  · exact (quotePlusL_facts v1.data h2 c2 hc2).1
  · decide
  · exact (quotePlusL_facts k2.data h3 c2 hc2).1
  · decide
  · exact (quotePlusL_facts v2.data h4 c2 hc2).1

theorem getAssoc_setAssoc_self (l : List (String × Bool)) (k : String) (v : Bool) :
    getAssoc (setAssoc l k v) k = some v := by
  induction l with
  | nil => simp [setAssoc, getAssoc]
  | cons kv t ih =>
    obtain ⟨k1, v1⟩ := kv
    by_cases hk : k1 = k
    · simp [setAssoc, hk, getAssoc]
    · simp [setAssoc, hk, getAssoc, ih]

theorem getAssoc_setAssoc_ne (l : List (String × Bool)) (k k2 : String) (v : Bool)
    (h : k2 ≠ k) : getAssoc (setAssoc l k v) k2 = getAssoc l k2 := by
  induction l with
  | nil => simp [setAssoc, getAssoc, Ne.symm h]
  | cons kv t ih =>
    obtain ⟨k1, v1⟩ := kv
    by_cases hk : k1 = k
    · subst hk
      simp [setAssoc, getAssoc, Ne.symm h]
    · simp only [setAssoc, if_neg hk, getAssoc]
      by_cases hk2 : k1 = k2
      · simp [hk2]
      · simp [hk2, ih]

theorem applyOps_append (st : AssetStoreState) (a b : List StoreOp) :
    applyOps st (a ++ b) = applyOps (applyOps st a) b := by
  simp [applyOps, List.foldl_append]

theorem getLockedAttr_assetLockOps_not_mem (assets : List Asset) (locked : Bool)
    (st : AssetStoreState) (k : String) (h : k ∉ assets.map Asset.asset_key) :
    getLockedAttr (applyOps st (assetLockOps locked assets)) k = getLockedAttr st k := by
  induction assets generalizing st with
  | nil => rfl
  | cons a rest ih =>
    simp only [List.map_cons, List.mem_cons, not_or] at h
    show getLockedAttr (applyOps
      (applyOp (applyOp st (StoreOp.setAttrLocked a.asset_key locked))
        (StoreOp.delCachedContent a.asset_key)) (assetLockOps locked rest)) k = _
    rw [ih _ h.2]
    simp [applyOp, getLockedAttr, getAssoc_setAssoc_ne _ _ _ _ h.1]

theorem getLockedAttr_assetLockOps_mem (assets : List Asset) (locked : Bool)
    (st : AssetStoreState) (k : String) (h : k ∈ assets.map Asset.asset_key) :
    getLockedAttr (applyOps st (assetLockOps locked assets)) k = some locked := by
  induction assets generalizing st with
  | nil => cases h
  | cons a rest ih =>
    show getLockedAttr (applyOps
      (applyOp (applyOp st (StoreOp.setAttrLocked a.asset_key locked))
        (StoreOp.delCachedContent a.asset_key)) (assetLockOps locked rest)) k = _
    by_cases hmem : k ∈ rest.map Asset.asset_key
    · exact ih _ hmem
    · simp only [List.map_cons, List.mem_cons] at h
      have hk : k = a.asset_key := by tauto
      subst hk
      rw [getLockedAttr_assetLockOps_not_mem rest locked _ _ hmem]
      simp [applyOp, getLockedAttr, getAssoc_setAssoc_self]

theorem delKeys_assetLockOps (locked : Bool) (assets : List Asset) :
    delKeys (assetLockOps locked assets) = assets.map Asset.asset_key := by
  induction assets with
  | nil => rfl
  | cons a rest ih => simp [assetLockOps, delKeys, ih]

theorem lockThenEvict_assetLockOps (locked : Bool) (assets : List Asset) :
    LockThenEvict locked (assetLockOps locked assets) := by
  induction assets with
  | nil => exact LockThenEvict.nil
  | cons a rest ih => exact LockThenEvict.cons a.asset_key _ ih

theorem toggleAllCourses_eq_flatMap (assetsOf : String → List Asset) (locked : Bool)
    (courses : List CourseDescriptor) :
    toggleAllCourses assetsOf locked courses
      = courses.flatMap (fun c => toggle_course_assets_lock assetsOf c.id locked) := by
  induction courses with
  | nil => rfl
  | cons c rest ih => simp [toggleAllCourses, ih]

theorem toggleAllCourses_decomp (assetsOf : String → List Asset) (locked : Bool)
    (courses : List CourseDescriptor) (c : CourseDescriptor) (hc : c ∈ courses) :
    ∃ pre post, toggleAllCourses assetsOf locked courses
      = pre ++ toggle_course_assets_lock assetsOf c.id locked ++ post := by
  induction courses with
  | nil => cases hc
  | cons c2 rest ih =>
    rcases List.mem_cons.1 hc with rfl | hc2
    · exact ⟨[], toggleAllCourses assetsOf locked rest, by simp [toggleAllCourses]⟩
    · obtain ⟨pre, post, hpp⟩ := ih hc2
      refine ⟨toggle_course_assets_lock assetsOf c2.id locked ++ pre, post, ?_⟩
      simp [toggleAllCourses, hpp, List.append_assoc]

theorem getTwoHeaders (resp : HttpResponse) (x c : String) :
    getHeader (setHeader (setHeader resp "X-Frame-Options" x) "Content-Security-Policy" c)
        "X-Frame-Options" = some x
    ∧ getHeader (setHeader (setHeader resp "X-Frame-Options" x) "Content-Security-Policy" c)
        "Content-Security-Policy" = some c := by
  constructor
  · rw [getHeader_setHeader_ne _ _ _ _ (by decide)]
    exact getHeader_setHeader_self _ _ _
  · exact getHeader_setHeader_self _ _ _

/-- C3 counterexample: the empty string cannot be parsed as a course key,
yet the command raises no error on it — Python's `if course_id:` treats `''`
like an omitted option — and instead mutates assets of every listed course:
here the trace is non-empty and an asset's locked attribute is changed.
This refutes the claim that every unparsable course-id string produces an
error and zero mutations. -/
theorem c3_empty_course_id_counterexample :
    (Command_handle (fun _ => none) [CourseDescriptor.mk "course-A"]
        (fun _ => [Asset.mk "a1"]) (some "") true).2 = none
    ∧ (Command_handle (fun _ => none) [CourseDescriptor.mk "course-A"]
        (fun _ => [Asset.mk "a1"]) (some "") true).1 ≠ []
    ∧ getLockedAttr (applyOps ⟨[], []⟩
        (Command_handle (fun _ => none) [CourseDescriptor.mk "course-A"]
          (fun _ => [Asset.mk "a1"]) (some "") true).1) "a1" = some true :=
  ⟨rfl, by decide, by decide⟩

/-- C3 (amended): a NON-EMPTY unparsable course id makes the asset-lock
toggler command raise a user-facing `CommandError` (with the
`Invalid course_id` message), and the mutation trace is empty: no asset
lock attribute is changed and no cache entry is evicted, i.e. the error
precedes every mutation step.  (The empty string, although unparsable, is
treated by `if course_id:` like an omitted option and toggles every
course's assets instead — see the counterexample.) -/
theorem c3_invalid_course_id_no_mutation (from_string : String → Option String)
    (courses : List CourseDescriptor) (assetsOf : String → List Asset)
    (cid : String) (locked : Bool) (st : AssetStoreState)
    (hbad : from_string cid = none) (hne : cid ≠ "") :
    Command_handle from_string courses assetsOf (some cid) locked
      = ([], some ("Invalid course_id: '" ++ cid ++ "'."))
    ∧ applyOps st (Command_handle from_string courses assetsOf (some cid) locked).1 = st := by
  have h : Command_handle from_string courses assetsOf (some cid) locked
      = ([], some ("Invalid course_id: '" ++ cid ++ "'.")) := by
    simp [Command_handle, hne, hbad]
  refine ⟨h, ?_⟩
  rw [h]
  rfl

theorem c3_invalid_course_id_no_mutation_witness :
    (fun _ : String => (none : Option String)) "not-a-key" = none
    ∧ "not-a-key" ≠ ""
    ∧ (Command_handle (fun _ => none) [] (fun _ => []) (some "not-a-key") true
        = ([], some ("Invalid course_id: '" ++ "not-a-key" ++ "'."))
      ∧ applyOps ⟨[("x", false)], ["x"]⟩
          (Command_handle (fun _ => none) [] (fun _ => []) (some "not-a-key") true).1
        = ⟨[("x", false)], ["x"]⟩) :=
  ⟨rfl, by decide,
   c3_invalid_course_id_no_mutation (fun _ => none) [] (fun _ => []) "not-a-key" true
     ⟨[("x", false)], ["x"]⟩ rfl (by decide)⟩

/-- C8: when the `--course-id` option is omitted, the command processes every
course of the course listing with the same lock value: it reports no error,
its mutation trace is the concatenation of the per-course toggle traces, and
the toggle trace of each listed course occurs as a contiguous segment. -/
theorem c8_all_courses_processed (from_string : String → Option String)
    (courses : List CourseDescriptor) (assetsOf : String → List Asset) (locked : Bool)
    (c : CourseDescriptor) (hc : c ∈ courses) :
    (Command_handle from_string courses assetsOf none locked).2 = none
    ∧ (Command_handle from_string courses assetsOf none locked).1
        = courses.flatMap (fun c2 => toggle_course_assets_lock assetsOf c2.id locked)
    ∧ ∃ pre post, (Command_handle from_string courses assetsOf none locked).1
        = pre ++ toggle_course_assets_lock assetsOf c.id locked ++ post := by
  refine ⟨rfl, ?_, ?_⟩
  · exact toggleAllCourses_eq_flatMap assetsOf locked courses
  · exact toggleAllCourses_decomp assetsOf locked courses c hc

theorem c8_all_courses_processed_witness :
    CourseDescriptor.mk "course-A" ∈ [CourseDescriptor.mk "course-A", CourseDescriptor.mk "course-B"]
    ∧ ((Command_handle (fun s => some s)
          [CourseDescriptor.mk "course-A", CourseDescriptor.mk "course-B"]
          (fun ck => [Asset.mk (ck ++ "/a")]) none true).2 = none
      ∧ (Command_handle (fun s => some s)
          [CourseDescriptor.mk "course-A", CourseDescriptor.mk "course-B"]
          (fun ck => [Asset.mk (ck ++ "/a")]) none true).1
        = [CourseDescriptor.mk "course-A", CourseDescriptor.mk "course-B"].flatMap
            (fun c2 => toggle_course_assets_lock (fun ck => [Asset.mk (ck ++ "/a")]) c2.id true)
      ∧ ∃ pre post, (Command_handle (fun s => some s)
          [CourseDescriptor.mk "course-A", CourseDescriptor.mk "course-B"]
          (fun ck => [Asset.mk (ck ++ "/a")]) none true).1
        = pre ++ toggle_course_assets_lock (fun ck => [Asset.mk (ck ++ "/a")]) "course-A" true
            ++ post) :=
  ⟨by decide,
   c8_all_courses_processed (fun s => some s)
     [CourseDescriptor.mk "course-A", CourseDescriptor.mk "course-B"]
     (fun ck => [Asset.mk (ck ++ "/a")]) true (CourseDescriptor.mk "course-A") (by decide)⟩

/-- C4 counterexample: the claim says that unlocking after locking restores
the pre-lock state, but for a course with one asset whose locked attribute
is initially `true`, locking then unlocking leaves the attribute `false`,
different from its pre-lock value. -/
theorem c4_unlock_not_restore_counterexample :
    getLockedAttr
      (applyOps
        (applyOps (AssetStoreState.mk [("asset-1", true)] [])
          (toggle_course_assets_lock (fun _ => [Asset.mk "asset-1"]) "course-1" true))
        (toggle_course_assets_lock (fun _ => [Asset.mk "asset-1"]) "course-1" false))
      "asset-1"
    ≠ getLockedAttr (AssetStoreState.mk [("asset-1", true)] []) "asset-1" := by decide

/-- C4 (amended): invoking the toggler with lock=true sets the locked
attribute of each of the course's assets to `true` and evicts exactly the
cache entries keyed by those assets' keys, each eviction immediately after
the corresponding mutation; invoking it again with lock=false sets every
locked attribute back to `false` (which coincides with the pre-lock state
only when every asset was unlocked beforehand). -/
theorem c4_toggle_lock_then_unlock (assetsOf : String → List Asset) (ck : String)
    (st : AssetStoreState) (k : String) (hk : k ∈ (assetsOf ck).map Asset.asset_key) :
    getLockedAttr (applyOps st (toggle_course_assets_lock assetsOf ck true)) k = some true
    ∧ delKeys (toggle_course_assets_lock assetsOf ck true) = (assetsOf ck).map Asset.asset_key
    ∧ LockThenEvict true (toggle_course_assets_lock assetsOf ck true)
    ∧ getLockedAttr (applyOps (applyOps st (toggle_course_assets_lock assetsOf ck true))
        (toggle_course_assets_lock assetsOf ck false)) k = some false :=
  ⟨getLockedAttr_assetLockOps_mem _ _ _ _ hk,
   delKeys_assetLockOps _ _,
   lockThenEvict_assetLockOps _ _,
   getLockedAttr_assetLockOps_mem _ _ _ _ hk⟩

theorem c4_toggle_lock_then_unlock_witness :
    "a1" ∈ (((fun _ : String => [Asset.mk "a1", Asset.mk "a2"]) "c").map Asset.asset_key)
    ∧ (getLockedAttr (applyOps ⟨[], ["a1"]⟩
          (toggle_course_assets_lock (fun _ => [Asset.mk "a1", Asset.mk "a2"]) "c" true)) "a1"
        = some true
      ∧ delKeys (toggle_course_assets_lock (fun _ => [Asset.mk "a1", Asset.mk "a2"]) "c" true)
        = (((fun _ : String => [Asset.mk "a1", Asset.mk "a2"]) "c").map Asset.asset_key)
      ∧ LockThenEvict true (toggle_course_assets_lock (fun _ => [Asset.mk "a1", Asset.mk "a2"]) "c" true)
      ∧ getLockedAttr (applyOps (applyOps ⟨[], ["a1"]⟩
            (toggle_course_assets_lock (fun _ => [Asset.mk "a1", Asset.mk "a2"]) "c" true))
          (toggle_course_assets_lock (fun _ => [Asset.mk "a1", Asset.mk "a2"]) "c" false)) "a1"
        = some false) :=
  ⟨by decide,
   c4_toggle_lock_then_unlock (fun _ => [Asset.mk "a1", Asset.mk "a2"]) "c" ⟨[], ["a1"]⟩ "a1"
     (by decide)⟩

/-- C7: when the request carries a `tpa_hint` naming a provider id for which
the registry lookup fails (the caught `ValueError`, modelled as `none`), the
decorator neither raises nor redirects: it returns the wrapped view's
response unchanged. -/
theorem c7_unknown_provider_falls_through (registry_get : String → Option SsoProviderConfig)
    (func : Request → HttpResponse) (request : Request) (pid : String)
    (hpid : request.GET_tpa_hint = some pid) (hreg : registry_get pid = none) :
    tpa_hint_ends_existing_session registry_get func request
      = ViewResult.response (func request) := by
  unfold tpa_hint_ends_existing_session
  rw [hpid]
  simp only [Option.getD_some]
  rw [hreg]
  simp [ite_self]

theorem c7_unknown_provider_falls_through_witness :
    ({ HTTP_REFERER := none, GET_tpa_hint := some "ghost", GET_session_cleared := none,
       user_present := true, user_is_authenticated := true, path := "/p",
       logout_url := "https://x/logout" } : Request).GET_tpa_hint = some "ghost"
    ∧ (fun _ : String => (none : Option SsoProviderConfig)) "ghost" = none
    ∧ tpa_hint_ends_existing_session (fun _ => none)
        (fun _ => HttpResponse.mk [] "body")
        { HTTP_REFERER := none, GET_tpa_hint := some "ghost", GET_session_cleared := none,
          user_present := true, user_is_authenticated := true, path := "/p",
          logout_url := "https://x/logout" }
      = ViewResult.response ((fun _ : Request => HttpResponse.mk [] "body")
          { HTTP_REFERER := none, GET_tpa_hint := some "ghost", GET_session_cleared := none,
            user_present := true, user_is_authenticated := true, path := "/p",
            logout_url := "https://x/logout" }) :=
  ⟨rfl, rfl,
   c7_unknown_provider_falls_through (fun _ => none) (fun _ => HttpResponse.mk [] "body")
     { HTTP_REFERER := none, GET_tpa_hint := some "ghost", GET_session_cleared := none,
       user_present := true, user_is_authenticated := true, path := "/p",
       logout_url := "https://x/logout" } "ghost" rfl rfl⟩

/-- C9: the hostname-based frame decorator modifies only the
`X-Frame-Options` header: the response body and every other header
(including `Content-Security-Policy`) are returned unchanged from the
wrapped view. -/
theorem c9_xframe_modifies_only_xfo (settings : Settings)
    (lti_current_set : List LTIProviderConfig) (view_func : Request → HttpResponse)
    (request : Request) (name : String) (hname : name ≠ "X-Frame-Options") :
    (xframe_allow_whitelisted settings lti_current_set view_func request).body
      = (view_func request).body
    ∧ getHeader (xframe_allow_whitelisted settings lti_current_set view_func request) name
      = getHeader (view_func request) name := by
  unfold xframe_allow_whitelisted
  exact ⟨setHeader_body _ _ _, getHeader_setHeader_ne _ _ _ _ hname⟩

theorem c9_xframe_modifies_only_xfo_witness :
    ("Content-Security-Policy" : String) ≠ "X-Frame-Options"
    ∧ ((xframe_allow_whitelisted ⟨true, []⟩ []
          (fun _ => HttpResponse.mk [("Content-Security-Policy", "frame-ancestors 'none'")] "hello")
          { HTTP_REFERER := none, GET_tpa_hint := none, GET_session_cleared := none,
            user_present := false, user_is_authenticated := false, path := "/p",
            logout_url := "/logout" }).body
        = ((fun _ : Request => HttpResponse.mk
            [("Content-Security-Policy", "frame-ancestors 'none'")] "hello")
          { HTTP_REFERER := none, GET_tpa_hint := none, GET_session_cleared := none,
            user_present := false, user_is_authenticated := false, path := "/p",
            logout_url := "/logout" }).body
      ∧ getHeader (xframe_allow_whitelisted ⟨true, []⟩ []
          (fun _ => HttpResponse.mk [("Content-Security-Policy", "frame-ancestors 'none'")] "hello")
          { HTTP_REFERER := none, GET_tpa_hint := none, GET_session_cleared := none,
            user_present := false, user_is_authenticated := false, path := "/p",
            logout_url := "/logout" }) "Content-Security-Policy"
        = getHeader ((fun _ : Request => HttpResponse.mk
            [("Content-Security-Policy", "frame-ancestors 'none'")] "hello")
          { HTTP_REFERER := none, GET_tpa_hint := none, GET_session_cleared := none,
            user_present := false, user_is_authenticated := false, path := "/p",
            logout_url := "/logout" }) "Content-Security-Policy") :=
  ⟨by decide,
   c9_xframe_modifies_only_xfo ⟨true, []⟩ []
     (fun _ => HttpResponse.mk [("Content-Security-Policy", "frame-ancestors 'none'")] "hello")
     { HTTP_REFERER := none, GET_tpa_hint := none, GET_session_cleared := none,
       user_present := false, user_is_authenticated := false, path := "/p",
       logout_url := "/logout" } "Content-Security-Policy" (by decide)⟩

/-- C10: the two successive definitions of `allow_frame_from_whitelisted_url`
(the shadowed list-comprehension version and the effective `map` version) are
behaviorally equivalent: on every settings, SSO URL set, view and request
they produce responses with identical `X-Frame-Options` and
`Content-Security-Policy` headers. -/
theorem c10_shadowed_versions_equivalent (settings : Settings) (sso_url_values : List String)
    (view_func : Request → HttpResponse) (request : Request) :
    getHeader (allow_frame_from_whitelisted_url_first settings sso_url_values view_func request)
        "X-Frame-Options"
      = getHeader (allow_frame_from_whitelisted_url settings sso_url_values view_func request)
        "X-Frame-Options"
    ∧ getHeader (allow_frame_from_whitelisted_url_first settings sso_url_values view_func request)
        "Content-Security-Policy"
      = getHeader (allow_frame_from_whitelisted_url settings sso_url_values view_func request)
        "Content-Security-Policy" := by
  have hl : sso_url_values.foldr (fun url acc => rstripSlashes url :: acc) []
      = sso_url_values.map (fun url => rstripSlashes url) := by
    induction sso_url_values with
    | nil => rfl
    | cons u t ih => simp [ih]
  have hfun : allow_frame_from_whitelisted_url_first settings sso_url_values view_func request
      = allow_frame_from_whitelisted_url settings sso_url_values view_func request := by
    unfold allow_frame_from_whitelisted_url_first allow_frame_from_whitelisted_url
    simp only [hl]
  rw [hfun]
  exact ⟨rfl, rfl⟩

/-- C5: with the third-party-auth feature flag disabled, both frame
decorators set `X-Frame-Options` to `DENY` regardless of the referrer. -/
theorem c5_flag_disabled_always_deny (settings : Settings) (sso_url_values : List String)
    (lti_current_set : List LTIProviderConfig) (view1 view2 : Request → HttpResponse)
    (req1 req2 : Request) (hflag : settings.ENABLE_THIRD_PARTY_AUTH = false) :
    getHeader (allow_frame_from_whitelisted_url settings sso_url_values view1 req1)
        "X-Frame-Options" = some "DENY"
    ∧ getHeader (xframe_allow_whitelisted settings lti_current_set view2 req2)
        "X-Frame-Options" = some "DENY" := by
  constructor
  · unfold allow_frame_from_whitelisted_url
    simp only [hflag, Bool.false_eq_true, if_false]
    exact (getTwoHeaders (view1 req1) "DENY" "frame-ancestors 'none'").1
  · unfold xframe_allow_whitelisted
    simp only [hflag, Bool.false_eq_true, if_false]
    exact getHeader_setHeader_self _ _ _

theorem c5_flag_disabled_always_deny_witness :
    (⟨false, ["https://a"]⟩ : Settings).ENABLE_THIRD_PARTY_AUTH = false
    ∧ (getHeader (allow_frame_from_whitelisted_url ⟨false, ["https://a"]⟩ ["https://idp/sso"]
          (fun _ => HttpResponse.mk [] "b")
          { HTTP_REFERER := some ⟨"https", "idp", "/sso", "", "", ""⟩, GET_tpa_hint := none,
            GET_session_cleared := none, user_present := false,
            user_is_authenticated := false, path := "/p", logout_url := "/l" })
        "X-Frame-Options" = some "DENY"
      ∧ getHeader (xframe_allow_whitelisted ⟨false, ["https://a"]⟩ [⟨"idp", true⟩]
          (fun _ => HttpResponse.mk [] "b")
          { HTTP_REFERER := some ⟨"https", "idp", "/sso", "", "", ""⟩, GET_tpa_hint := none,
            GET_session_cleared := none, user_present := false,
            user_is_authenticated := false, path := "/p", logout_url := "/l" })
        "X-Frame-Options" = some "DENY") :=
  ⟨rfl,
   c5_flag_disabled_always_deny ⟨false, ["https://a"]⟩ ["https://idp/sso"] [⟨"idp", true⟩]
     (fun _ => HttpResponse.mk [] "b") (fun _ => HttpResponse.mk [] "b")
     { HTTP_REFERER := some ⟨"https", "idp", "/sso", "", "", ""⟩, GET_tpa_hint := none,
       GET_session_cleared := none, user_present := false,
       user_is_authenticated := false, path := "/p", logout_url := "/l" }
     { HTTP_REFERER := some ⟨"https", "idp", "/sso", "", "", ""⟩, GET_tpa_hint := none,
       GET_session_cleared := none, user_present := false,
       user_is_authenticated := false, path := "/p", logout_url := "/l" } rfl⟩

/-- C1: with the feature flag enabled and the referrer, normalized by
stripping query string, fragment, params and trailing slashes of the path,
equal to a configured SSO URL (also trailing-slash-stripped), the
whitelisted-URL decorator returns `X-Frame-Options: ALLOW-FROM` followed by
the space-joined allow-list and `Content-Security-Policy: frame-ancestors`
with the same list; on any request not matching that condition (wrong or
absent referrer, or flag off) it returns `DENY` and `frame-ancestors 'none'`. -/
theorem c1_whitelisted_url_headers (settings : Settings) (sso_url_values : List String)
    (view_func : Request → HttpResponse) (req1 req2 : Request) (parsed_url : ParsedUrl)
    (hflag : settings.ENABLE_THIRD_PARTY_AUTH = true)
    (href : req1.HTTP_REFERER = some parsed_url)
    (hmem : urlunparse
        { scheme := parsed_url.scheme, netloc := parsed_url.netloc,
          path := rstripSlashes parsed_url.path, params := "", query := "", fragment := "" }
      ∈ sso_url_values.map (fun url => rstripSlashes url))
    (hno : ¬ ssoRefererMatch settings sso_url_values req2) :
    (getHeader (allow_frame_from_whitelisted_url settings sso_url_values view_func req1)
        "X-Frame-Options"
      = some ("ALLOW-FROM "
          ++ String.intercalate " " settings.THIRD_PARTY_AUTH_FRAME_ALLOWED_FROM_URL)
    ∧ getHeader (allow_frame_from_whitelisted_url settings sso_url_values view_func req1)
        "Content-Security-Policy"
      = some ("frame-ancestors "
          ++ String.intercalate " " settings.THIRD_PARTY_AUTH_FRAME_ALLOWED_FROM_URL))
    ∧ (getHeader (allow_frame_from_whitelisted_url settings sso_url_values view_func req2)
        "X-Frame-Options" = some "DENY"
    ∧ getHeader (allow_frame_from_whitelisted_url settings sso_url_values view_func req2)
        "Content-Security-Policy" = some "frame-ancestors 'none'") := by
  constructor
  · have hres : allow_frame_from_whitelisted_url settings sso_url_values view_func req1
        = setHeader (setHeader (view_func req1) "X-Frame-Options"
            ("ALLOW-FROM "
              ++ String.intercalate " " settings.THIRD_PARTY_AUTH_FRAME_ALLOWED_FROM_URL))
            "Content-Security-Policy"
            ("frame-ancestors "
              ++ String.intercalate " " settings.THIRD_PARTY_AUTH_FRAME_ALLOWED_FROM_URL) := by
      unfold allow_frame_from_whitelisted_url
      simp [hflag, href, hmem]
    rw [hres]
    exact getTwoHeaders _ _ _
  · have hden : allow_frame_from_whitelisted_url settings sso_url_values view_func req2
        = setHeader (setHeader (view_func req2) "X-Frame-Options" "DENY")
            "Content-Security-Policy" "frame-ancestors 'none'" := by
      unfold allow_frame_from_whitelisted_url
      rcases hf2 : settings.ENABLE_THIRD_PARTY_AUTH with - | -
      · simp [hf2]
      · rcases hr2 : req2.HTTP_REFERER with - | p2
        · simp [hr2]
        · have hnm : ¬ (urlunparse
              { scheme := p2.scheme, netloc := p2.netloc,
                path := rstripSlashes p2.path, params := "", query := "", fragment := "" }
                ∈ sso_url_values.map (fun url => rstripSlashes url)) :=
            fun hm => hno ⟨hf2, p2, hr2, hm⟩
          simp [hr2, hnm]
    rw [hden]
    exact getTwoHeaders _ _ _

theorem c1_whitelisted_url_headers_witness :
    (⟨true, ["https://lms.example.com"]⟩ : Settings).ENABLE_THIRD_PARTY_AUTH = true
    ∧ ({ HTTP_REFERER := some ⟨"https", "idp.example.com", "/sso/", "", "q=1", "top"⟩,
         GET_tpa_hint := none, GET_session_cleared := none, user_present := false,
         user_is_authenticated := false, path := "/p", logout_url := "/l" } : Request).HTTP_REFERER
      = some ⟨"https", "idp.example.com", "/sso/", "", "q=1", "top"⟩
    ∧ urlunparse
        { scheme := ("https" : String), netloc := "idp.example.com",
          path := rstripSlashes "/sso/", params := "", query := "", fragment := "" }
      ∈ (["https://idp.example.com/sso/"].map (fun url => rstripSlashes url))
    ∧ ¬ ssoRefererMatch ⟨true, ["https://lms.example.com"]⟩ ["https://idp.example.com/sso/"]
        { HTTP_REFERER := some ⟨"https", "evil.example.com", "/sso", "", "", ""⟩,
          GET_tpa_hint := none, GET_session_cleared := none, user_present := false,
          user_is_authenticated := false, path := "/p", logout_url := "/l" }
    ∧ ((getHeader (allow_frame_from_whitelisted_url ⟨true, ["https://lms.example.com"]⟩
          ["https://idp.example.com/sso/"] (fun _ => HttpResponse.mk [] "b")
          { HTTP_REFERER := some ⟨"https", "idp.example.com", "/sso/", "", "q=1", "top"⟩,
            GET_tpa_hint := none, GET_session_cleared := none, user_present := false,
            user_is_authenticated := false, path := "/p", logout_url := "/l" })
          "X-Frame-Options"
        = some ("ALLOW-FROM " ++ String.intercalate " " (["https://lms.example.com"] : List String))
      ∧ getHeader (allow_frame_from_whitelisted_url ⟨true, ["https://lms.example.com"]⟩
          ["https://idp.example.com/sso/"] (fun _ => HttpResponse.mk [] "b")
          { HTTP_REFERER := some ⟨"https", "idp.example.com", "/sso/", "", "q=1", "top"⟩,
            GET_tpa_hint := none, GET_session_cleared := none, user_present := false,
            user_is_authenticated := false, path := "/p", logout_url := "/l" })
          "Content-Security-Policy"
        = some ("frame-ancestors " ++ String.intercalate " " (["https://lms.example.com"] : List String)))
      ∧ (getHeader (allow_frame_from_whitelisted_url ⟨true, ["https://lms.example.com"]⟩
          ["https://idp.example.com/sso/"] (fun _ => HttpResponse.mk [] "b")
          { HTTP_REFERER := some ⟨"https", "evil.example.com", "/sso", "", "", ""⟩,
            GET_tpa_hint := none, GET_session_cleared := none, user_present := false,
            user_is_authenticated := false, path := "/p", logout_url := "/l" })
          "X-Frame-Options" = some "DENY"
      ∧ getHeader (allow_frame_from_whitelisted_url ⟨true, ["https://lms.example.com"]⟩
          ["https://idp.example.com/sso/"] (fun _ => HttpResponse.mk [] "b")
          { HTTP_REFERER := some ⟨"https", "evil.example.com", "/sso", "", "", ""⟩,
            GET_tpa_hint := none, GET_session_cleared := none, user_present := false,
            user_is_authenticated := false, path := "/p", logout_url := "/l" })
          "Content-Security-Policy" = some "frame-ancestors 'none'")) :=
  ⟨rfl, rfl, by decide,
   by
    rintro ⟨-, p, hp, hm⟩
    rw [Option.some_inj] at hp
    subst hp
    revert hm
    decide,
   c1_whitelisted_url_headers ⟨true, ["https://lms.example.com"]⟩ ["https://idp.example.com/sso/"]
     (fun _ => HttpResponse.mk [] "b")
     { HTTP_REFERER := some ⟨"https", "idp.example.com", "/sso/", "", "q=1", "top"⟩,
       GET_tpa_hint := none, GET_session_cleared := none, user_present := false,
       user_is_authenticated := false, path := "/p", logout_url := "/l" }
     { HTTP_REFERER := some ⟨"https", "evil.example.com", "/sso", "", "", ""⟩,
       GET_tpa_hint := none, GET_session_cleared := none, user_present := false,
       user_is_authenticated := false, path := "/p", logout_url := "/l" }
     ⟨"https", "idp.example.com", "/sso/", "", "q=1", "top"⟩ rfl rfl (by decide)
     (by
       rintro ⟨-, p, hp, hm⟩
       rw [Option.some_inj] at hp
       subst hp
       revert hm
       decide)⟩

/-- C6: the hostname-based decorator sets `X-Frame-Options: ALLOW` exactly
when the feature flag is enabled, a referrer is present and its hostname is
the registered `lti_hostname` of a currently enabled LTI provider
configuration; in every other case it sets `DENY`. -/
theorem c6_xframe_hostname_allow (settings : Settings)
    (lti_current_set : List LTIProviderConfig) (view_func : Request → HttpResponse)
    (req1 req2 : Request) (parsed_url : ParsedUrl) (cfg : LTIProviderConfig)
    (hflag : settings.ENABLE_THIRD_PARTY_AUTH = true)
    (href : req1.HTTP_REFERER = some parsed_url)
    (hc : cfg ∈ lti_current_set) (hen : cfg.enabled = true)
    (hhost : parsed_url.hostname = some cfg.lti_hostname)
    (hno : ¬ ltiRefererMatch settings lti_current_set req2) :
    getHeader (xframe_allow_whitelisted settings lti_current_set view_func req1)
        "X-Frame-Options" = some "ALLOW"
    ∧ getHeader (xframe_allow_whitelisted settings lti_current_set view_func req2)
        "X-Frame-Options" = some "DENY" := by
  constructor
  · have hany : lti_current_set.any
        (fun c => (some c.lti_hostname == parsed_url.hostname) && c.enabled) = true := by
      rw [List.any_eq_true]
      refine ⟨cfg, hc, ?_⟩
      rw [hhost, hen]
      simp
    have hres : xframe_allow_whitelisted settings lti_current_set view_func req1
        = setHeader (view_func req1) "X-Frame-Options" "ALLOW" := by
      unfold xframe_allow_whitelisted
      simp [hflag, href, hany]
    rw [hres]
    exact getHeader_setHeader_self _ _ _
  · have hden : xframe_allow_whitelisted settings lti_current_set view_func req2
        = setHeader (view_func req2) "X-Frame-Options" "DENY" := by
      unfold xframe_allow_whitelisted
      rcases hf2 : settings.ENABLE_THIRD_PARTY_AUTH with - | -
      · simp [hf2]
      · rcases hr2 : req2.HTTP_REFERER with - | p2
        · simp [hr2]
        · have hany2 : lti_current_set.any
              (fun c => (some c.lti_hostname == p2.hostname) && c.enabled) = false := by
            rw [Bool.eq_false_iff]
            intro ht
            rw [List.any_eq_true] at ht
            obtain ⟨cfg2, hcfg2, hp⟩ := ht
            rw [Bool.and_eq_true, beq_iff_eq] at hp
            exact hno ⟨hf2, p2, hr2, cfg2, hcfg2, hp.2, hp.1.symm⟩
          simp [hr2, hany2]
    rw [hden]
    exact getHeader_setHeader_self _ _ _

theorem c6_xframe_hostname_allow_witness :
    (⟨true, []⟩ : Settings).ENABLE_THIRD_PARTY_AUTH = true
    ∧ ({ HTTP_REFERER := some ⟨"https", "Tool.example.com:443", "/launch", "", "", ""⟩,
         GET_tpa_hint := none, GET_session_cleared := none, user_present := false,
         user_is_authenticated := false, path := "/p", logout_url := "/l" } : Request).HTTP_REFERER
      = some ⟨"https", "Tool.example.com:443", "/launch", "", "", ""⟩
    ∧ (⟨"tool.example.com", true⟩ : LTIProviderConfig)
        ∈ [(⟨"other.example.com", false⟩ : LTIProviderConfig), ⟨"tool.example.com", true⟩]
    ∧ (⟨"tool.example.com", true⟩ : LTIProviderConfig).enabled = true
    ∧ (ParsedUrl.hostname ⟨"https", "Tool.example.com:443", "/launch", "", "", ""⟩)
      = some (⟨"tool.example.com", true⟩ : LTIProviderConfig).lti_hostname
    ∧ ¬ ltiRefererMatch ⟨true, []⟩
        [(⟨"other.example.com", false⟩ : LTIProviderConfig), ⟨"tool.example.com", true⟩]
        { HTTP_REFERER := none, GET_tpa_hint := none, GET_session_cleared := none,
          user_present := false, user_is_authenticated := false, path := "/p",
          logout_url := "/l" }
    ∧ (getHeader (xframe_allow_whitelisted ⟨true, []⟩
          [(⟨"other.example.com", false⟩ : LTIProviderConfig), ⟨"tool.example.com", true⟩]
          (fun _ => HttpResponse.mk [] "b")
          { HTTP_REFERER := some ⟨"https", "Tool.example.com:443", "/launch", "", "", ""⟩,
            GET_tpa_hint := none, GET_session_cleared := none, user_present := false,
            user_is_authenticated := false, path := "/p", logout_url := "/l" })
          "X-Frame-Options" = some "ALLOW"
      ∧ getHeader (xframe_allow_whitelisted ⟨true, []⟩
          [(⟨"other.example.com", false⟩ : LTIProviderConfig), ⟨"tool.example.com", true⟩]
          (fun _ => HttpResponse.mk [] "b")
          { HTTP_REFERER := none, GET_tpa_hint := none, GET_session_cleared := none,
            user_present := false, user_is_authenticated := false, path := "/p",
            logout_url := "/l" })
          "X-Frame-Options" = some "DENY") :=
  ⟨rfl, rfl, by decide, rfl, by decide,
   (by rintro ⟨-, p, hp, -⟩; cases hp),
   c6_xframe_hostname_allow ⟨true, []⟩
     [(⟨"other.example.com", false⟩ : LTIProviderConfig), ⟨"tool.example.com", true⟩]
     (fun _ => HttpResponse.mk [] "b")
     { HTTP_REFERER := some ⟨"https", "Tool.example.com:443", "/launch", "", "", ""⟩,
       GET_tpa_hint := none, GET_session_cleared := none, user_present := false,
       user_is_authenticated := false, path := "/p", logout_url := "/l" }
     { HTTP_REFERER := none, GET_tpa_hint := none, GET_session_cleared := none,
       user_present := false, user_is_authenticated := false, path := "/p",
       logout_url := "/l" }
     ⟨"https", "Tool.example.com:443", "/launch", "", "", ""⟩ ⟨"tool.example.com", true⟩
     rfl rfl (by decide) rfl (by decide)
     (by
       rintro ⟨-, p, hp, -⟩
       cases hp)⟩

/-- C2: a request whose `tpa_hint` names a provider, with the
`session_cleared` marker absent, an authenticated user present, and the
named provider configured to drop existing sessions, is redirected to the
logout endpoint with a `redirect_url` query parameter that itself carries
both `tpa_hint=<same provider id>` and `session_cleared=yes`; a request
already carrying `session_cleared=yes` is not redirected and the wrapped
view runs, even with the same hint and an authenticated user. -/
theorem c2_tpa_hint_redirect_cycle (registry_get : String → Option SsoProviderConfig)
    (func : Request → HttpResponse) (req1 req2 : Request) (pid : String)
    (prov : SsoProviderConfig)
    (h1 : req1.GET_tpa_hint = some pid)
    (h2 : pid ≠ "")
    (h3 : req1.GET_session_cleared = none)
    (h4 : req1.user_present = true)
    (h5 : req1.user_is_authenticated = true)
    (h6 : registry_get pid = some prov)
    (h7 : prov.drop_existing_session = true)
    (h8 : allLt256 req1.path)
    (h9 : allLt256 pid)
    (h10 : '?' ∉ req1.logout_url.data)
    (h11 : '?' ∉ req1.path.data)
    (h12 : req2.GET_session_cleared = some "yes") :
    (∃ url, tpa_hint_ends_existing_session registry_get func req1 = ViewResult.redirect url
      ∧ (⟨beforeFirstChar '?' url.data⟩ : String) = req1.logout_url
      ∧ ∃ rv, ("redirect_url", rv) ∈ parseQsl (queryStringOf url)
          ∧ ("tpa_hint", pid) ∈ parseQsl (queryStringOf rv)
          ∧ ("session_cleared", "yes") ∈ parseQsl (queryStringOf rv))
    ∧ tpa_hint_ends_existing_session registry_get func req2
        = ViewResult.response (func req2) := by
  have hinner256 : allLt256
      (req1.path ++ "?" ++ urlencodePairs [("tpa_hint", pid), ("session_cleared", "yes")]) :=
    allLt256_append_q _ _ h8
      (allLt256_urlencodePairs_two "tpa_hint" pid "session_cleared" "yes"
        (by decide) h9 (by decide) (by decide))
  constructor
  · have hred : tpa_hint_ends_existing_session registry_get func req1
        = ViewResult.redirect (tpaLogoutRedirectUrl req1 pid) := by
      unfold tpa_hint_ends_existing_session
      rw [h1, h3]
      simp only [Option.getD_some]
      rw [h6]
      simp [truthyOptStr, h2, h4, h5, h7]
    refine ⟨tpaLogoutRedirectUrl req1 pid, hred, ?_, ?_⟩
    · exact urlBaseOf_append req1.logout_url
        (urlencodePairs [("redirect_url",
          req1.path ++ "?" ++ urlencodePairs [("tpa_hint", pid), ("session_cleared", "yes")])])
        h10
    · refine ⟨req1.path ++ "?" ++ urlencodePairs [("tpa_hint", pid), ("session_cleared", "yes")],
        ?_, ?_, ?_⟩
      · have hq : queryStringOf (tpaLogoutRedirectUrl req1 pid)
            = urlencodePairs [("redirect_url",
                req1.path ++ "?" ++ urlencodePairs [("tpa_hint", pid), ("session_cleared", "yes")])] :=
          queryStringOf_append req1.logout_url _ h10
        rw [hq, parseQsl_urlencodePairs_one "redirect_url" _ (by decide) hinner256]
        simp
      · have hq2 : queryStringOf
            (req1.path ++ "?" ++ urlencodePairs [("tpa_hint", pid), ("session_cleared", "yes")])
            = urlencodePairs [("tpa_hint", pid), ("session_cleared", "yes")] :=
          queryStringOf_append req1.path _ h11
        rw [hq2, parseQsl_urlencodePairs_two "tpa_hint" pid "session_cleared" "yes"
          (by decide) h9 (by decide) (by decide)]
        simp
      · have hq2 : queryStringOf
            (req1.path ++ "?" ++ urlencodePairs [("tpa_hint", pid), ("session_cleared", "yes")])
            = urlencodePairs [("tpa_hint", pid), ("session_cleared", "yes")] :=
          queryStringOf_append req1.path _ h11
        rw [hq2, parseQsl_urlencodePairs_two "tpa_hint" pid "session_cleared" "yes"
          (by decide) h9 (by decide) (by decide)]
        simp
  · unfold tpa_hint_ends_existing_session
    rw [h12]
    simp

theorem c2_tpa_hint_redirect_cycle_witness :
    exampleReq1.GET_tpa_hint = some "saml-test"
    ∧ "saml-test" ≠ ""
    ∧ exampleReq1.GET_session_cleared = none
    ∧ exampleReq1.user_present = true
    ∧ exampleReq1.user_is_authenticated = true
    ∧ exampleRegistry "saml-test" = some ⟨true⟩
    ∧ (SsoProviderConfig.mk true).drop_existing_session = true
    ∧ allLt256 exampleReq1.path
    ∧ allLt256 "saml-test"
    ∧ '?' ∉ exampleReq1.logout_url.data
    ∧ '?' ∉ exampleReq1.path.data
    ∧ exampleReq2.GET_session_cleared = some "yes"
    ∧ ((∃ url, tpa_hint_ends_existing_session exampleRegistry exampleView exampleReq1
          = ViewResult.redirect url
        ∧ (⟨beforeFirstChar '?' url.data⟩ : String) = exampleReq1.logout_url
        ∧ ∃ rv, ("redirect_url", rv) ∈ parseQsl (queryStringOf url)
            ∧ ("tpa_hint", "saml-test") ∈ parseQsl (queryStringOf rv)
            ∧ ("session_cleared", "yes") ∈ parseQsl (queryStringOf rv))
      ∧ tpa_hint_ends_existing_session exampleRegistry exampleView exampleReq2
          = ViewResult.response (exampleView exampleReq2)) :=
  ⟨rfl, by decide, rfl, rfl, rfl, by decide, rfl, by decide, by decide, by decide, by decide, rfl,
   c2_tpa_hint_redirect_cycle exampleRegistry exampleView exampleReq1 exampleReq2 "saml-test"
     ⟨true⟩ rfl (by decide) rfl rfl rfl (by decide) rfl (by decide) (by decide) (by decide)
     (by decide) rfl⟩

end Edx
